import Mathlib

/-!
Verification of the proxy health-check and readiness subsystem of
`litellm/proxy/health_endpoints/_health_endpoints.py`.

The handlers are shallowly embedded as pure Lean functions.  External
collaborators that live outside the provided sources (`perform_health_check`,
`litellm.ahealth_check` raced by `run_with_timeout`, the redaction function
`_clean_endpoint_data`, `_update_litellm_params_for_health_check`, and
`prisma_client.health_check`) are taken as function parameters, so the
theorems quantify over every possible behaviour of those collaborators.
Wall-clock instants (`datetime.now()`) are modelled as natural numbers
counting seconds; `timedelta(minutes=2)` is 120 seconds.  Exceptions are
modelled with `Except`: a raising collaborator is a parameter returning
`Except.error msg`, and an HTTP error response raised by a handler is an
`Except.error (statusCode, detail)` result.
-/

/-- A Python/JSON value, as far as the health handlers inspect one. -/
inductive JVal where
  | str : String → JVal
  | num : Nat → JVal
  | null : JVal
deriving DecidableEq, Repr

/-- A Python dict with string keys, modelled as an insertion-ordered
association list (Python dicts preserve insertion order). -/
abbrev PyDict := List (String × JVal)

/-- Setting a key in a Python dict: an existing key is overwritten in place
(keeping its position), a new key is appended at the end. -/
def dictSet (d : PyDict) (k : String) (v : JVal) : PyDict :=
  if d.any (fun p => p.1 = k) then
    d.map (fun p => if p.1 = k then (k, v) else p)
  else
    d ++ [(k, v)]

/-- Key lookup in a Python dict (first binding wins; with `dictSet`
maintaining uniqueness this matches Python `d[k]`). -/
def dictGet (d : PyDict) (k : String) : Option JVal :=
  (d.find? (fun p => p.1 = k)).map (fun p => p.2)

/-- Python `"k" in d`. -/
def dictHasKey (d : PyDict) (k : String) : Bool :=
  d.any (fun p => p.1 = k)

/-- Python dict merge `\x7b**d1, **d2\x7d`: start from `d1`, then set every
binding of `d2` in order. -/
def dictMerge (d1 d2 : PyDict) : PyDict :=
  d2.foldl (fun acc p => dictSet acc p.1 p.2) d1

/-- Python `d.pop(k, None)` restricted to its effect on the dict: remove the
key. -/
def dictRemove (d : PyDict) (k : String) : PyDict :=
  d.filter (fun p => p.1 ≠ k)

/-- The module-level readiness record `db_health_cache`:
`\x7b"status": ..., "last_updated": ...\x7d` with a status string
(`"unknown"`, `"connected"` or `"disconnected"`) and a timestamp. -/
structure DbHealthCache where
  status : String
  last_updated : Nat
deriving DecidableEq, Repr

/-- The staleness window `timedelta(minutes=2)` of
`_db_health_readiness_check`, in seconds. -/
def stalenessWindowSeconds : Nat := 120

/-- Result of one call to `_db_health_readiness_check`: the cache state after
the call, the returned record (or the propagated exception message), and how
many times `prisma_client.health_check` was awaited. -/
structure DbCheckResult where
  cacheAfter : DbHealthCache
  result : Except String DbHealthCache
  calls : Nat
deriving Repr

/-- Embedding of `_db_health_readiness_check` (lines 378-396).  `now` is
`datetime.now()`; `prisma_client` is `none` when no database client is
configured, and otherwise carries the outcome of `await
prisma_client.health_check()` (`Except.error e` models the probe raising,
in which case the exception propagates and the assignment to the cache on
line 395 never runs). -/
def db_health_readiness_check (now : Nat) (prisma_client : Option (Except String Unit))
    (cache : DbHealthCache) : DbCheckResult :=
  let time_diff := now - cache.last_updated
  if cache.status ≠ "unknown" ∧ time_diff < stalenessWindowSeconds then
    ⟨cache, Except.ok cache, 0⟩
  else
    match prisma_client with
    | none => ⟨⟨"disconnected", now⟩, Except.ok ⟨"disconnected", now⟩, 0⟩
    | some (Except.error e) => ⟨cache, Except.error e, 1⟩
    | some (Except.ok _) => ⟨⟨"connected", now⟩, Except.ok ⟨"connected", now⟩, 1⟩

/-- Embedding of `health_readiness` (lines 496-552).  `cache_type`, `version`
and `success_callbacks` are the values the handler computed for those fields
(opaque to the claims).  Returns the response (`Except.ok payload` for a 200
JSON body, `Except.error (503, detail)` for the `HTTPException` raised on
line 552) together with the readiness-cache state after the call.  The
payload is built exactly as the source dict literal is, including the
`**db_health_status` spread that re-sets the `"status"` key and appends
`"last_updated"`. -/
def health_readiness (prisma_client : Option (Except String Unit)) (now : Nat)
    (cache : DbHealthCache) (cache_type version success_callbacks : JVal) :
    Except (Nat × String) PyDict × DbHealthCache :=
  match prisma_client with
  | some _ =>
    let chk := db_health_readiness_check now prisma_client cache
    match chk.result with
    | Except.error e =>
        (Except.error (503, "Service Unhealthy (" ++ e ++ ")"), chk.cacheAfter)
    | Except.ok rec =>
        let base : PyDict :=
          [("status", JVal.str "healthy"), ("db", JVal.str "connected"),
           ("cache", cache_type), ("litellm_version", version),
           ("success_callbacks", success_callbacks)]
        let payload :=
          dictMerge base [("status", JVal.str rec.status),
                          ("last_updated", JVal.num rec.last_updated)]
        (Except.ok payload, chk.cacheAfter)
  | none =>
      (Except.ok
        [("status", JVal.str "healthy"), ("db", JVal.str "Not connected"),
         ("cache", cache_type), ("litellm_version", version),
         ("success_callbacks", success_callbacks)], cache)

/-- Embedding of `health_liveliness` (lines 565-569): the handler body is a
single `return` of a fixed literal. -/
def health_liveliness : String := "I\x27m alive!"

/-- The arguments `health_endpoint` passes to `perform_health_check`
(`model_list`, `model`, `cli_model`, `details`), with the endpoint element
type left abstract. -/
structure PerformArgs (ε : Type) where
  model_list : List ε
  model : Option String
  cli_model : Option String
  details : Option Bool
deriving Repr

/-- Possible results of `health_endpoint`: a freshly built report dict, the
cached background-check results object returned verbatim, or a raised
`HTTPException`. -/
inductive HealthEndpointResult (α ρ : Type) where
  | report (healthy unhealthy : List ρ) (healthy_count unhealthy_count : Nat)
  | cachedResults (r : α)
  | httpError (code : Nat) (detail : String)
deriving Repr

/-- Embedding of `health_endpoint` (lines 298-372).  `perform_health_check`
is the external orchestrator (its element type `ρ` and the type `α` of the
background-cache object are abstract); the returned `Nat` counts how many
times it was invoked.  The access-filter block of the source (lines 347-351)
is a no-op (`pass` in both branches) and the `copy.deepcopy` is the identity
on the value, so neither appears here. -/
def health_endpoint {ε ρ α : Type} (llm_model_list : Option (List ε))
    (user_model : Option String) (use_background_health_checks : Bool)
    (health_check_results : α) (health_check_details : Option Bool)
    (perform_health_check : PerformArgs ε → List ρ × List ρ)
    (model : Option String) : HealthEndpointResult α ρ × Nat :=
  match llm_model_list with
  | none =>
    match user_model with
    | some u =>
        let pr := perform_health_check ⟨[], none, some u, health_check_details⟩
        (HealthEndpointResult.report pr.1 pr.2 pr.1.length pr.2.length, 1)
    | none => (HealthEndpointResult.httpError 500 "Model list not initialized", 0)
  | some l =>
    if use_background_health_checks then
      (HealthEndpointResult.cachedResults health_check_results, 0)
    else
      let pr := perform_health_check ⟨l, model, none, health_check_details⟩
      (HealthEndpointResult.report pr.1 pr.2 pr.1.length pr.2.length, 1)

/-- Modelled from the spec: `HEALTH_CHECK_TIMEOUT_SECONDS` is imported from
`litellm.constants`, which is not among the provided sources.  The spec only
requires it to be "a fixed upper-bound timeout constant"; the claims depend
on it only as the value the handler hands to the probe, so its numeric value
is irrelevant to every theorem below. -/
def HEALTH_CHECK_TIMEOUT_SECONDS : Nat := 60

/-- Result of one call to `test_model_connection`: the response
(`Except.ok (statusField, resultField)` for the 200 body,
`Except.error (500, detail)` for the `HTTPException` raised on failure) and
the timeout value that was passed to the probe. -/
structure TestConnectionResult where
  response : Except (Nat × String) (String × PyDict)
  timeoutUsed : Nat

/-- Embedding of `test_model_connection` (lines 616-698).
`update` is the external `_update_litellm_params_for_health_check`, `clean`
the external redaction step `_clean_endpoint_data`, and `ahealth_check` the
external probe `run_with_timeout(litellm.ahealth_check(...), t)` as a
function of the timeout `t` it is raced against (`Except.error e` models it
raising, including on timeout).  The handler resolves `mode` with
`mode or litellm_params.pop("mode", None)`: when `mode` is absent the key
`"mode"` is popped from the params before they are merged with the result. -/
def test_model_connection (update clean : PyDict → PyDict)
    (ahealth_check : Nat → Except String PyDict) (mode : Option String)
    (litellm_params : PyDict) : TestConnectionResult :=
  let params := update litellm_params
  let params2 := match mode with
    | some _ => params
    | none => dictRemove params "mode"
  match ahealth_check HEALTH_CHECK_TIMEOUT_SECONDS with
  | Except.error e =>
      ⟨Except.error (500, "Failed to test connection: " ++ e),
       HEALTH_CHECK_TIMEOUT_SECONDS⟩
  | Except.ok result =>
      ⟨Except.ok
        ((if dictHasKey result "error" then "error" else "success"),
         clean (dictMerge params2 result)),
       HEALTH_CHECK_TIMEOUT_SECONDS⟩

/-! ## Theorems -/

/-- Claim C1: on every call to `_db_health_readiness_check`, if the cached
record's status is not `"unknown"` and its age is strictly below the
2-minute staleness window, the cached record is returned unchanged and
`prisma_client.health_check` is not invoked; otherwise, with a database
client configured, the dependency check is invoked exactly once and the
cached record is updated to the new status with the current timestamp
before being returned. -/
theorem db_check_cache_semantics (now : Nat) (pc : Except String Unit)
    (cache : DbHealthCache) :
    (cache.status ≠ "unknown" ∧ now - cache.last_updated < stalenessWindowSeconds →
      db_health_readiness_check now (some pc) cache = ⟨cache, Except.ok cache, 0⟩)
    ∧ (¬(cache.status ≠ "unknown" ∧ now - cache.last_updated < stalenessWindowSeconds) →
      (db_health_readiness_check now (some pc) cache).calls = 1
      ∧ ∀ r, (db_health_readiness_check now (some pc) cache).result = Except.ok r →
          r = ⟨"connected", now⟩
          ∧ (db_health_readiness_check now (some pc) cache).cacheAfter = r) := by
  constructor
  · intro h
    simp only [db_health_readiness_check, if_pos h]
  · intro h
    cases pc with
    | error e =>
        refine ⟨?_, ?_⟩
        · simp only [db_health_readiness_check, if_neg h]
        · intro r hr
          simp only [db_health_readiness_check, if_neg h] at hr
          exact absurd hr (by simp)
    | ok u =>
        refine ⟨?_, ?_⟩
        · simp only [db_health_readiness_check, if_neg h]
        · intro r hr
          simp only [db_health_readiness_check, if_neg h, Except.ok.injEq] at hr
          subst hr
          simp only [db_health_readiness_check, if_neg h]
          exact ⟨trivial, trivial⟩

/-- Witness for C1 at concrete inputs: a fresh `"connected"` record (age 50s)
is returned unchanged with no probe call, and a stale record (age 300s)
triggers exactly one successful probe that rewrites the cache. -/
theorem db_check_cache_semantics_witness :
    db_health_readiness_check 200 (some (Except.ok ())) ⟨"connected", 150⟩
      = ⟨⟨"connected", 150⟩, Except.ok ⟨"connected", 150⟩, 0⟩
    ∧ (db_health_readiness_check 400 (some (Except.ok ())) ⟨"connected", 100⟩).calls = 1 :=
  ⟨(db_check_cache_semantics 200 (Except.ok ()) ⟨"connected", 150⟩).1 (by decide),
   ((db_check_cache_semantics 400 (Except.ok ()) ⟨"connected", 100⟩).2 (by decide)).1⟩

/-- Claim C5: when the dependency check raises, the exception propagates out
of `_db_health_readiness_check` uncaught — the stale-cache refresh path has
no handler that converts the failure into a returned record. -/
theorem db_check_error_propagates (now : Nat) (e : String) (cache : DbHealthCache)
    (h : ¬(cache.status ≠ "unknown" ∧ now - cache.last_updated < stalenessWindowSeconds)) :
    (db_health_readiness_check now (some (Except.error e)) cache).result
      = Except.error e := by
  simp only [db_health_readiness_check, if_neg h]

/-- Witness for C5: an uninitialized (`"unknown"`) cache with a raising probe
propagates the exact exception. -/
theorem db_check_error_propagates_witness :
    (db_health_readiness_check 500 (some (Except.error "db down")) ⟨"unknown", 0⟩).result
      = Except.error "db down" :=
  db_check_error_propagates 500 "db down" ⟨"unknown", 0⟩ (by decide)

/-- Claim C10: a refresh whose dependency check raises leaves the cached
record (status and timestamp) exactly as it was, so the failed refresh does
not advance the staleness window and a later call attempts the probe
again. -/
theorem db_check_failure_preserves_cache (now now' : Nat) (e : String)
    (pc' : Except String Unit) (cache : DbHealthCache)
    (h : ¬(cache.status ≠ "unknown" ∧ now - cache.last_updated < stalenessWindowSeconds))
    (hle : now ≤ now') :
    (db_health_readiness_check now (some (Except.error e)) cache).cacheAfter = cache
    ∧ (db_health_readiness_check now' (some pc') cache).calls = 1 := by
  have h' : ¬(cache.status ≠ "unknown" ∧ now' - cache.last_updated < stalenessWindowSeconds) := by
    intro ⟨h1, h2⟩
    exact h ⟨h1, lt_of_le_of_lt (Nat.sub_le_sub_right hle cache.last_updated) h2⟩
  constructor
  · simp only [db_health_readiness_check, if_neg h]
  · exact ((db_check_cache_semantics now' pc' cache).2 h').1

/-- Witness for C10: a stale `"connected"` record survives a failing probe at
t=400 unchanged, and the probe is attempted again at t=450. -/
theorem db_check_failure_preserves_cache_witness :
    (db_health_readiness_check 400 (some (Except.error "boom")) ⟨"connected", 100⟩).cacheAfter
      = ⟨"connected", 100⟩
    ∧ (db_health_readiness_check 450 (some (Except.ok ())) ⟨"connected", 100⟩).calls = 1 :=
  db_check_failure_preserves_cache 400 450 "boom" (Except.ok ()) ⟨"connected", 100⟩
    (by decide) (by decide)

/-- Claim C2, counterexample: with a database client configured and a
successful dependency check (fresh probe at t=1000 on an `"unknown"` cache),
the 200 payload's top-level `"status"` field is `"connected"`, not
`"healthy"`: the `**db_health_status` spread in the dict literal overwrites
the `"status": "healthy"` entry. -/
theorem readiness_status_not_healthy :
    ((health_readiness (some (Except.ok ())) 1000 ⟨"unknown", 0⟩
        JVal.null JVal.null JVal.null).1.toOption.bind
      (fun p => dictGet p "status")) = some (JVal.str "connected")
    ∧ ((health_readiness (some (Except.ok ())) 1000 ⟨"unknown", 0⟩
        JVal.null JVal.null JVal.null).1.toOption.bind
      (fun p => dictGet p "status")) ≠ some (JVal.str "healthy") := by
  constructor
  · rfl
  · decide

/-- Claim C2 as amended: when the database client is configured, the cache is
stale (or `"unknown"`) and the dependency check succeeds, the success payload
has `db = "connected"` but its top-level `status` field is `"connected"` —
the merged db record's status, which overwrites `"healthy"`; when no
database client is configured the payload has `status = "healthy"` and
`db = "Not connected"`. -/
theorem readiness_payload_fields (now : Nat) (cache : DbHealthCache)
    (ct v sc : JVal) :
    (¬(cache.status ≠ "unknown" ∧ now - cache.last_updated < stalenessWindowSeconds) →
      (health_readiness (some (Except.ok ())) now cache ct v sc).1
        = Except.ok
            [("status", JVal.str "connected"), ("db", JVal.str "connected"),
             ("cache", ct), ("litellm_version", v), ("success_callbacks", sc),
             ("last_updated", JVal.num now)])
    ∧ (health_readiness none now cache ct v sc).1
        = Except.ok
            [("status", JVal.str "healthy"), ("db", JVal.str "Not connected"),
             ("cache", ct), ("litellm_version", v), ("success_callbacks", sc)] := by
  constructor
  · intro h
    simp [health_readiness, db_health_readiness_check, if_neg h, dictMerge, dictSet]
  · rfl

/-- Witness for the amended C2 at concrete inputs. -/
theorem readiness_payload_fields_witness :
    (health_readiness (some (Except.ok ())) 1000 ⟨"unknown", 0⟩
        JVal.null (JVal.str "1.0") JVal.null).1
      = Except.ok
          [("status", JVal.str "connected"), ("db", JVal.str "connected"),
           ("cache", JVal.null), ("litellm_version", JVal.str "1.0"),
           ("success_callbacks", JVal.null), ("last_updated", JVal.num 1000)] :=
  (readiness_payload_fields 1000 ⟨"unknown", 0⟩ JVal.null (JVal.str "1.0") JVal.null).1
    (by decide)

/-- Claim C4: when the dependency check raises inside
`_db_health_readiness_check`, `health_readiness` does not propagate the
exception past the service boundary: it raises an `HTTPException` with
status code 503 carrying the error message, never a 2xx payload and never a
cached `"connected"` value. -/
theorem readiness_error_is_503 (now : Nat) (e : String) (cache : DbHealthCache)
    (ct v sc : JVal)
    (h : ¬(cache.status ≠ "unknown" ∧ now - cache.last_updated < stalenessWindowSeconds)) :
    (health_readiness (some (Except.error e)) now cache ct v sc).1
      = Except.error (503, "Service Unhealthy (" ++ e ++ ")") := by
  simp [health_readiness, db_health_readiness_check, if_neg h]

/-- Witness for C4: a raising probe on an `"unknown"` cache yields the 503
error response with the message embedded. -/
theorem readiness_error_is_503_witness :
    (health_readiness (some (Except.error "db down")) 1000 ⟨"unknown", 0⟩
        JVal.null JVal.null JVal.null).1
      = Except.error (503, "Service Unhealthy (db down)") :=
  readiness_error_is_503 1000 "db down" ⟨"unknown", 0⟩ JVal.null JVal.null JVal.null
    (by decide)

/-- Claim C3: with background health checks enabled and the router model
list initialized, `health_endpoint` returns the cached
`health_check_results` object unchanged — regardless of any model filter
supplied — and never invokes `perform_health_check`. -/
theorem health_endpoint_background_returns_cache {ε ρ α : Type} (l : List ε)
    (user_model : Option String) (results : α) (details : Option Bool)
    (perform : PerformArgs ε → List ρ × List ρ) (model : Option String) :
    health_endpoint (some l) user_model true results details perform model
      = (HealthEndpointResult.cachedResults results, 0) := rfl

/-- Claim C6: with no router model list and no CLI model, `health_endpoint`
raises an HTTP 500 `"Model list not initialized"` error; with a CLI model
set, it instead runs the single-model fallback through
`perform_health_check` (with an empty model list and the CLI model) and
returns a classified report payload, not an error. -/
theorem health_endpoint_no_model_list {ε ρ α : Type} (bg : Bool) (results : α)
    (details : Option Bool) (perform : PerformArgs ε → List ρ × List ρ)
    (model : Option String) :
    health_endpoint (none : Option (List ε)) none bg results details perform model
      = (HealthEndpointResult.httpError 500 "Model list not initialized", 0)
    ∧ ∀ u : String,
        health_endpoint (none : Option (List ε)) (some u) bg results details perform model
          = (HealthEndpointResult.report
              (perform ⟨[], none, some u, details⟩).1
              (perform ⟨[], none, some u, details⟩).2
              (perform ⟨[], none, some u, details⟩).1.length
              (perform ⟨[], none, some u, details⟩).2.length, 1) :=
  ⟨rfl, fun _ => rfl⟩

/-- Claim C8: every fresh-run response of `health_endpoint` (background mode
disabled with a router list, or the CLI single-model path) has
`healthy_count` equal to the length of its `healthy_endpoints` list and
`unhealthy_count` equal to the length of its `unhealthy_endpoints` list. -/
theorem health_endpoint_counts_match {ε ρ α : Type} (user_model : Option String)
    (bg : Bool) (results : α) (details : Option Bool)
    (perform : PerformArgs ε → List ρ × List ρ) (model : Option String) :
    (∀ l : List ε, ∃ h uh : List ρ,
      health_endpoint (some l) user_model false results details perform model
        = (HealthEndpointResult.report h uh h.length uh.length, 1))
    ∧ (∀ u : String, ∃ h uh : List ρ,
      health_endpoint (none : Option (List ε)) (some u) bg results details perform model
        = (HealthEndpointResult.report h uh h.length uh.length, 1)) :=
  ⟨fun l => ⟨(perform ⟨l, model, none, details⟩).1,
             (perform ⟨l, model, none, details⟩).2, rfl⟩,
   fun u => ⟨(perform ⟨[], none, some u, details⟩).1,
             (perform ⟨[], none, some u, details⟩).2, rfl⟩⟩

/-- Claim C9: `health_liveliness` always returns the same fixed literal
success payload; its body is that literal, so it reads no dependency or
cache state and cannot fail. -/
theorem health_liveliness_constant : health_liveliness = "I\x27m alive!" := rfl

/-- Claim C7: on every successful invocation of `test_model_connection`, the
probe is handed the fixed timeout constant `HEALTH_CHECK_TIMEOUT_SECONDS`,
the returned `status` field is `"error"` exactly when the probe result has
an `"error"` key and `"success"` otherwise, and the returned `result` field
is the probe outcome (merged over the request parameters) passed through the
redaction step `clean`. -/
theorem test_model_connection_spec (update clean : PyDict → PyDict)
    (ahealth_check : Nat → Except String PyDict) (mode : Option String)
    (litellm_params : PyDict) (d : PyDict)
    (hp : ahealth_check HEALTH_CHECK_TIMEOUT_SECONDS = Except.ok d) :
    (test_model_connection update clean ahealth_check mode litellm_params).timeoutUsed
      = HEALTH_CHECK_TIMEOUT_SECONDS
    ∧ ∃ st cres,
        (test_model_connection update clean ahealth_check mode litellm_params).response
          = Except.ok (st, cres)
        ∧ (st = "error" ↔ dictHasKey d "error" = true)
        ∧ (dictHasKey d "error" = false → st = "success")
        ∧ cres = clean (dictMerge
            (match mode with
             | some _ => update litellm_params
             | none => dictRemove (update litellm_params) "mode") d) := by
  refine ⟨?_, ?_⟩
  · simp only [test_model_connection]
    cases hc : ahealth_check HEALTH_CHECK_TIMEOUT_SECONDS <;> rfl
  · refine ⟨(if dictHasKey d "error" then "error" else "success"),
      clean (dictMerge
        (match mode with
         | some _ => update litellm_params
         | none => dictRemove (update litellm_params) "mode") d), ?_, ?_, ?_, rfl⟩
    · simp only [test_model_connection, hp]
    · by_cases hk : dictHasKey d "error" <;> simp [hk]
    · intro hk
      simp [hk]

/-- Witness for C7 at concrete inputs: identity `update`/`clean`, a probe
returning a dict with an `"error"` key, so the status is `"error"` and the
result is the merged dict. -/
theorem test_model_connection_spec_witness :
    (test_model_connection (fun d => d) (fun d => d)
        (fun _ => Except.ok [("error", JVal.str "x")]) (some "chat") []).timeoutUsed
      = HEALTH_CHECK_TIMEOUT_SECONDS
    ∧ ∃ st cres,
        (test_model_connection (fun d => d) (fun d => d)
            (fun _ => Except.ok [("error", JVal.str "x")]) (some "chat") []).response
          = Except.ok (st, cres)
        ∧ (st = "error" ↔ dictHasKey [("error", JVal.str "x")] "error" = true)
        ∧ (dictHasKey [("error", JVal.str "x")] "error" = false → st = "success")
        ∧ cres = (fun d => d) (dictMerge
            (match some "chat" with
             | some _ => (fun d => d) ([] : PyDict)
             | none => dictRemove ((fun d => d) ([] : PyDict)) "mode")
            [("error", JVal.str "x")]) :=
  test_model_connection_spec (fun d => d) (fun d => d)
    (fun _ => Except.ok [("error", JVal.str "x")]) (some "chat") []
    [("error", JVal.str "x")] rfl
